import Mathlib

/-!
Shallow embedding of `core/bin/zksync_api/src/signature_checker.rs`
(signature verification core of the zkSync transaction admission pipeline).

External collaborators (the on-chain query capability, the transaction data
model accessors `account()` / `check_correctness()`, and the pure signature
recovery routine from `zksync_types`) are modelled as explicit capability
records: the source consumes them through narrow interfaces and `expect`s on
transport failure (a fatal fault outside the returned-value semantics), so the
capabilities are modelled as total functions.

Addresses, nonces, public-key hashes and packed signatures are modelled as
`Nat`; signed messages as `List Nat` (byte strings).
-/

namespace SignatureChecker

/-- Decidable equality of `Except` results, so that the checker can be
evaluated on concrete inputs. -/
instance instDecEqExcept {ε α : Type} [DecidableEq ε] [DecidableEq α] :
    DecidableEq (Except ε α) := fun a b =>
  match a, b with
  | Except.ok x, Except.ok y =>
    if h : x = y then Decidable.isTrue (by rw [h])
    else Decidable.isFalse (fun hc => h (by injection hc))
  | Except.error x, Except.error y =>
    if h : x = y then Decidable.isTrue (by rw [h])
    else Decidable.isFalse (fun hc => h (by injection hc))
  | Except.ok _, Except.error _ => Decidable.isFalse (fun hc => by injection hc)
  | Except.error _, Except.ok _ => Decidable.isFalse (fun hc => by injection hc)

/-- Rejection kinds produced by the verification protocol (`TxAddError` in
`tx_error.rs`; only the three variants this module produces are modelled). -/
inductive TxAddError
  | ChangePkNotAuthorized
  | IncorrectEthSignature
  | IncorrectTx
  deriving DecidableEq, Repr

/-- Ethereum signature attached to a transaction or a batch: either an
address-recoverable packed ECDSA signature or an EIP-1271 contract-validated
signature (`TxEthSignature` in `zksync_types`). -/
inductive TxEthSignature
  | EthereumSignature (packed : Nat)
  | EIP1271Signature (sig : Nat)
  deriving DecidableEq, Repr

/-- Pair of an Ethereum signature and the message the user signed
(`EthSignData` in `zksync_types`). -/
structure EthSignData where
  signature : TxEthSignature
  message : List Nat
  deriving DecidableEq, Repr

/-- Batch-level signature data (`BatchSignData` in `zksync_types`, a tuple
struct whose field `0` is an `EthSignData`). -/
structure BatchSignData where
  signData : EthSignData
  deriving DecidableEq, Repr

/-- Payload of a `ChangePubKey` transaction, keeping the fields read by the
signature checker: the account, the nonce, the new public-key hash, and the
optional Ethereum signature embedded in the operation itself. -/
structure ChangePubKeyTx where
  account : Nat
  nonce : Nat
  new_pk_hash : Nat
  eth_signature : Option Nat
  deriving DecidableEq, Repr

/-- A zkSync transaction: the signature checker only distinguishes the
`ChangePubKey` operation; every other operation is opaque to it. -/
inductive ZkSyncTx
  | ChangePubKey (change_pk : ChangePubKeyTx)
  | Other (data : Nat)
  deriving DecidableEq, Repr

/-- Represents a yet unverified transaction with the corresponding Ethereum
signature and message (`TxWithSignData` in the source). -/
structure TxWithSignData where
  tx : ZkSyncTx
  eth_sign_data : Option EthSignData
  deriving DecidableEq, Repr

/-- Verify-request payload: either a single transaction or a transaction
batch with its batch-level signature data (`TxVariant` in the source). -/
inductive TxVariant
  | Tx (tx : TxWithSignData)
  | Batch (txs : List TxWithSignData) (batch_sign_data : BatchSignData)
  deriving DecidableEq, Repr

/-- A signed transaction as kept after verification (`SignedZkSyncTx` in
`zksync_types`): the transaction plus its optional Ethereum sign data. -/
structure SignedZkSyncTx where
  tx : ZkSyncTx
  eth_sign_data : Option EthSignData
  deriving DecidableEq, Repr

/-- Verified-side variant: a single signed transaction, or a batch of signed
transactions together with the batch-level Ethereum signature
(`SignedTxVariant` in the source). -/
inductive SignedTxVariant
  | Tx (tx : SignedZkSyncTx)
  | Batch (txs : List SignedZkSyncTx) (batch_signature : TxEthSignature)
  deriving DecidableEq, Repr

/-- Wrapper on a `SignedTxVariant` which guarantees that the transaction(s)
were checked; in the source the field is private so values only arise from
`VerifiedTx::verify`. -/
structure VerifiedTx where
  val : SignedTxVariant
  deriving DecidableEq, Repr

/-- On-chain query capability (`EthereumChecker` in `eth_checker.rs`). The
Rust methods return `Result<bool, _>` and every call site `expect`s the
result, so a transport failure aborts the task instead of producing a value;
the capability is therefore modelled as total boolean queries. -/
structure EthereumChecker where
  is_new_pubkey_hash_authorized : Nat → Nat → Nat → Bool
  is_eip1271_signature_correct : Nat → List Nat → Nat → Bool

/-- External pure capabilities from `zksync_types` consumed by the checker:
address recovery from a packed signature and message (failure modelled as
`none`), the declared account of a transaction, and the structural
self-consistency check `ZkSyncTx::check_correctness`. -/
structure TxOracle where
  signature_recover_signer : Nat → List Nat → Option Nat
  account_of : ZkSyncTx → Nat
  check_correctness : ZkSyncTx → Bool

/-- First block of `verify_eth_signature_single_tx`: if the transaction is a
`ChangePubKey` operation without an Ethereum signature, query whether the new
public-key hash was authorized on-chain; an unauthorized key change is
rejected with `ChangePkNotAuthorized`. -/
def check_change_pk_auth (eth_checker : EthereumChecker) (tx : ZkSyncTx) :
    Except TxAddError Unit :=
  match tx with
  | ZkSyncTx.ChangePubKey change_pk =>
    match change_pk.eth_signature with
    | none =>
      if eth_checker.is_new_pubkey_hash_authorized change_pk.account change_pk.nonce
          change_pk.new_pk_hash
      then Except.ok ()
      else Except.error TxAddError.ChangePkNotAuthorized
    | some _ => Except.ok ()
  | ZkSyncTx.Other _ => Except.ok ()

/-- Second block of `verify_eth_signature_single_tx`: if Ethereum sign data is
attached, check it. A recoverable signature must recover to the declared
account (else `IncorrectEthSignature`); an EIP-1271 signature must validate
on-chain for the declared account (else `IncorrectTx`). -/
def check_eth_sign_data (oracle : TxOracle) (eth_checker : EthereumChecker)
    (tx : TxWithSignData) : Except TxAddError Unit :=
  match tx.eth_sign_data with
  | some sign_data =>
    match sign_data.signature with
    | TxEthSignature.EthereumSignature packed_signature =>
      match oracle.signature_recover_signer packed_signature sign_data.message with
      | none => Except.error TxAddError.IncorrectEthSignature
      | some signer_account =>
        if signer_account ≠ oracle.account_of tx.tx
        then Except.error TxAddError.IncorrectEthSignature
        else Except.ok ()
    | TxEthSignature.EIP1271Signature signature =>
      if eth_checker.is_eip1271_signature_correct (oracle.account_of tx.tx)
          sign_data.message signature
      then Except.ok ()
      else Except.error TxAddError.IncorrectTx
  | none => Except.ok ()

/-- Function `verify_eth_signature_single_tx` of the source: the
`ChangePubKey` authorization block runs first, then the attached Ethereum
sign data is checked. -/
def verify_eth_signature_single_tx (oracle : TxOracle)
    (eth_checker : EthereumChecker) (tx : TxWithSignData) :
    Except TxAddError Unit :=
  match check_change_pk_auth eth_checker tx.tx with
  | Except.error e => Except.error e
  | Except.ok _ => check_eth_sign_data oracle eth_checker tx

/-- The EIP-1271 branch loop of `verify_eth_signature_txs_batch`: for each
transaction in order, query the on-chain capability with the account of the
transaction, the batch message and the batch signature; the first negative
answer aborts with `IncorrectTx`. The second component records the sequence
of `(account, message, signature)` queries issued to the capability. -/
def eip1271_batch_loop (oracle : TxOracle) (eth_checker : EthereumChecker)
    (message : List Nat) (signature : Nat) :
    List TxWithSignData → Except TxAddError Unit × List (Nat × List Nat × Nat)
  | [] => (Except.ok (), [])
  | tx :: rest =>
    let acc := oracle.account_of tx.tx
    if eth_checker.is_eip1271_signature_correct acc message signature then
      let r := eip1271_batch_loop oracle eth_checker message signature rest
      (r.1, (acc, message, signature) :: r.2)
    else
      (Except.error TxAddError.IncorrectTx, [(acc, message, signature)])

/-- Function `verify_eth_signature_txs_batch` of the source: check the
batch-level signature against the batch message. A recoverable batch
signature must recover to an address equal to the declared account of every
transaction of the batch; an EIP-1271 batch signature is checked on-chain
once per transaction. -/
def verify_eth_signature_txs_batch (oracle : TxOracle)
    (eth_checker : EthereumChecker) (txs : List TxWithSignData)
    (batch_sign_data : BatchSignData) : Except TxAddError Unit :=
  match batch_sign_data.signData.signature with
  | TxEthSignature.EthereumSignature packed_signature =>
    match oracle.signature_recover_signer packed_signature
        batch_sign_data.signData.message with
    | none => Except.error TxAddError.IncorrectEthSignature
    | some signer_account =>
      if txs.any (fun tx => oracle.account_of tx.tx != signer_account)
      then Except.error TxAddError.IncorrectEthSignature
      else Except.ok ()
  | TxEthSignature.EIP1271Signature signature =>
    (eip1271_batch_loop oracle eth_checker batch_sign_data.signData.message
      signature txs).1

/-- The on-chain queries issued by the EIP-1271 branch of
`verify_eth_signature_txs_batch` (empty for a recoverable batch signature,
which issues no on-chain query). -/
def batch_eip1271_queries (oracle : TxOracle) (eth_checker : EthereumChecker)
    (txs : List TxWithSignData) (batch_sign_data : BatchSignData) :
    List (Nat × List Nat × Nat) :=
  match batch_sign_data.signData.signature with
  | TxEthSignature.EthereumSignature _ => []
  | TxEthSignature.EIP1271Signature signature =>
    (eip1271_batch_loop oracle eth_checker batch_sign_data.signData.message
      signature txs).2

/-- The per-transaction loop of `verify_eth_signature` in the batch case: the
signatures provided for individual transactions of a batch are still
verified, in sequence order, short-circuiting at the first failure. -/
def verify_each_single (oracle : TxOracle) (eth_checker : EthereumChecker) :
    List TxWithSignData → Except TxAddError Unit
  | [] => Except.ok ()
  | tx :: rest =>
    match verify_eth_signature_single_tx oracle eth_checker tx with
    | Except.error e => Except.error e
    | Except.ok _ => verify_each_single oracle eth_checker rest

/-- Function `verify_eth_signature` of the source: dispatch on the payload
kind; a batch runs the batch-level check first and then the per-transaction
checks. -/
def verify_eth_signature (oracle : TxOracle) (eth_checker : EthereumChecker)
    (request_tx : TxVariant) : Except TxAddError Unit :=
  match request_tx with
  | TxVariant.Tx tx => verify_eth_signature_single_tx oracle eth_checker tx
  | TxVariant.Batch txs batch_sign_data =>
    match verify_eth_signature_txs_batch oracle eth_checker txs batch_sign_data with
    | Except.error e => Except.error e
    | Except.ok _ => verify_each_single oracle eth_checker txs

/-- Function `verify_tx_correctness` of the source: run the structural
self-consistency check of every transaction of the payload; any failure
rejects with `IncorrectTx`. -/
def verify_tx_correctness (oracle : TxOracle) (tx : TxVariant) :
    Except TxAddError Unit :=
  match tx with
  | TxVariant.Tx tx =>
    if !oracle.check_correctness tx.tx
    then Except.error TxAddError.IncorrectTx
    else Except.ok ()
  | TxVariant.Batch batch _ =>
    if batch.any (fun tx => !oracle.check_correctness tx.tx)
    then Except.error TxAddError.IncorrectTx
    else Except.ok ()

/-- The closure passed to `.map` in `VerifiedTx::verify`: rebuild the
payload into its verified form. A single transaction keeps its sign data; a
verified batch keeps, for every transaction, the sign data that transaction
carried, and stores the batch-level signature as the second component of the
batch variant. -/
def rebuild_verified (request_tx : TxVariant) : VerifiedTx :=
  match request_tx with
  | TxVariant.Tx tx =>
    VerifiedTx.mk (SignedTxVariant.Tx
      { tx := tx.tx, eth_sign_data := tx.eth_sign_data })
  | TxVariant.Batch txs batch_sign_data =>
    VerifiedTx.mk (SignedTxVariant.Batch
      (txs.map fun tx => { tx := tx.tx, eth_sign_data := tx.eth_sign_data })
      batch_sign_data.signData.signature)

/-- Method `VerifiedTx::verify` of the source: verify the Ethereum
signature(s), then the transaction correctness, then rebuild the payload
into its verified form. -/
def VerifiedTx.verify (oracle : TxOracle) (eth_checker : EthereumChecker)
    (request_tx : TxVariant) : Except TxAddError VerifiedTx :=
  match verify_eth_signature oracle eth_checker request_tx with
  | Except.error e => Except.error e
  | Except.ok _ =>
    match verify_tx_correctness oracle request_tx with
    | Except.error e => Except.error e
    | Except.ok _ => Except.ok (rebuild_verified request_tx)

/-- Method `VerifiedTx::unwrap_tx` of the source. The source panics (aborts
the call path) when the value is a batch; the abort is modelled as `none`,
and a returned transaction as `some`. No `TxAddError` (recoverable error)
value exists in the signature. -/
def VerifiedTx.unwrap_tx : VerifiedTx → Option SignedZkSyncTx
  | VerifiedTx.mk (SignedTxVariant.Tx tx) => some tx
  | VerifiedTx.mk (SignedTxVariant.Batch _ _) => none

/-- Method `VerifiedTx::unwrap_batch` of the source. The source panics when
the value is a single transaction; the abort is modelled as `none`. -/
def VerifiedTx.unwrap_batch :
    VerifiedTx → Option (List SignedZkSyncTx × TxEthSignature)
  | VerifiedTx.mk (SignedTxVariant.Batch txs eth_signature) =>
    some (txs, eth_signature)
  | VerifiedTx.mk (SignedTxVariant.Tx _) => none

/-- The transactions (with their sign data) of a payload. -/
def TxVariant.items : TxVariant → List TxWithSignData
  | TxVariant.Tx tx => [tx]
  | TxVariant.Batch txs _ => txs

/-! ### Concrete capabilities used as evaluation witnesses -/

/-- A concrete oracle: a packed signature `p` recovers to address `p % 10`
unless `p = 0` (recovery failure); the account of a `ChangePubKey` is its
account field, of an opaque transaction its payload modulo 10; every
transaction passes the structural check. -/
def demoOracle : TxOracle where
  signature_recover_signer := fun packed _ =>
    if packed = 0 then none else some (packed % 10)
  account_of := fun tx =>
    match tx with
    | ZkSyncTx.ChangePubKey change_pk => change_pk.account
    | ZkSyncTx.Other data => data % 10
  check_correctness := fun _ => true

/-- A concrete on-chain capability answering every query positively. -/
def demoChecker : EthereumChecker where
  is_new_pubkey_hash_authorized := fun _ _ _ => true
  is_eip1271_signature_correct := fun _ _ _ => true

/-- A concrete on-chain capability answering every query negatively. -/
def denyChecker : EthereumChecker where
  is_new_pubkey_hash_authorized := fun _ _ _ => false
  is_eip1271_signature_correct := fun _ _ _ => false

/-- A batch item for the witnesses: an opaque transaction with account 5
carrying its own recoverable per-item signature. -/
def c1_item : TxWithSignData where
  tx := ZkSyncTx.Other 5
  eth_sign_data := some
    { signature := TxEthSignature.EthereumSignature 5, message := [1] }

/-- Batch-level sign data for the witnesses: a recoverable signature
(distinct from the per-item one) that also recovers to address 5. -/
def c1_batch_sign : BatchSignData where
  signData :=
    { signature := TxEthSignature.EthereumSignature 15, message := [2] }

/-! ### Helper lemmas shared between claims -/

/-- When `VerifiedTx.verify` succeeds, the produced value is the rebuilt
payload: the single transaction with its own sign data, or the batch items
each with their own sign data next to the batch-level signature. -/
theorem verify_ok_shape (oracle : TxOracle) (eth_checker : EthereumChecker)
    (req : TxVariant) (v : VerifiedTx)
    (h : VerifiedTx.verify oracle eth_checker req = Except.ok v) :
    v = rebuild_verified req := by
  unfold VerifiedTx.verify at h
  split at h
  · simp at h
  · split at h
    · simp at h
    · injection h with h
      exact h.symm

/-- An Ethereum-signature failure propagates unchanged through
`VerifiedTx.verify`. -/
theorem verify_eth_error_propagates (oracle : TxOracle)
    (eth_checker : EthereumChecker) (req : TxVariant) (e : TxAddError)
    (h : verify_eth_signature oracle eth_checker req = Except.error e) :
    VerifiedTx.verify oracle eth_checker req = Except.error e := by
  unfold VerifiedTx.verify
  rw [h]

/-! ### C1 -/

/-- Claim C1 as stated is refuted at a concrete batch: the batch of the
single item `c1_item` verifies successfully, yet the item inside the
verified batch still carries its original per-item sign data (signature
`EthereumSignature 5`), which differs from the batch-level signature
(`EthereumSignature 15`); the per-item signature data is kept, not
replaced. -/
theorem c1_counterexample :
    VerifiedTx.verify demoOracle demoChecker
        (TxVariant.Batch [c1_item] c1_batch_sign) =
      Except.ok (VerifiedTx.mk (SignedTxVariant.Batch
        [{ tx := ZkSyncTx.Other 5,
           eth_sign_data := some
             { signature := TxEthSignature.EthereumSignature 5,
               message := [1] } }]
        (TxEthSignature.EthereumSignature 15))) ∧
    (some { signature := TxEthSignature.EthereumSignature 5,
            message := ([1] : List Nat) } : Option EthSignData) ≠
      some { signature := TxEthSignature.EthereumSignature 15, message := [2] } ∧
    TxEthSignature.EthereumSignature 5 ≠ TxEthSignature.EthereumSignature 15 := by
  decide

/-- C1 (amended): for every batch payload that verifies successfully, each
item of the verified batch retains exactly the per-item sign data it carried
in the input, and the batch-level signature is stored once, alongside the
items, as the second component of the batch variant. -/
theorem c1_batch_keeps_item_sign_data (oracle : TxOracle)
    (eth_checker : EthereumChecker) (txs : List TxWithSignData)
    (batch_sign_data : BatchSignData) (v : VerifiedTx)
    (h : VerifiedTx.verify oracle eth_checker
      (TxVariant.Batch txs batch_sign_data) = Except.ok v) :
    v.unwrap_batch = some
      (txs.map fun tx => { tx := tx.tx, eth_sign_data := tx.eth_sign_data },
        batch_sign_data.signData.signature) := by
  have hv := verify_ok_shape oracle eth_checker
    (TxVariant.Batch txs batch_sign_data) v h
  subst hv
  rfl

/-- Witness for C1 at the concrete batch of `c1_item`. -/
theorem c1_batch_keeps_item_sign_data_witness :
    VerifiedTx.unwrap_batch (VerifiedTx.mk (SignedTxVariant.Batch
        ([c1_item].map fun tx =>
          { tx := tx.tx, eth_sign_data := tx.eth_sign_data })
        c1_batch_sign.signData.signature)) =
      some ([c1_item].map (fun tx =>
          { tx := tx.tx, eth_sign_data := tx.eth_sign_data }),
        c1_batch_sign.signData.signature) :=
  c1_batch_keeps_item_sign_data demoOracle demoChecker [c1_item] c1_batch_sign
    _ (by decide)

/-! ### C8 -/

/-- C8: a single-kind verified value aborts (modelled as `none`, the panic
path) when unwrapped as a batch and yields its transaction when unwrapped as
single; a batch-kind verified value aborts when unwrapped as a single
transaction and yields its content when unwrapped as batch. The accessors
return no `TxAddError` value: the mismatch is never a recoverable error. -/
theorem c8_mismatched_accessor_aborts (v : VerifiedTx) :
    (∀ tx, v.val = SignedTxVariant.Tx tx →
      v.unwrap_batch = none ∧ v.unwrap_tx = some tx) ∧
    (∀ txs sig, v.val = SignedTxVariant.Batch txs sig →
      v.unwrap_tx = none ∧ v.unwrap_batch = some (txs, sig)) := by
  obtain ⟨val⟩ := v
  constructor
  · rintro tx rfl
    exact ⟨rfl, rfl⟩
  · rintro txs sig rfl
    exact ⟨rfl, rfl⟩

/-- Witness for C8 at concrete single-kind and batch-kind values. -/
theorem c8_mismatched_accessor_aborts_witness :
    VerifiedTx.unwrap_batch (VerifiedTx.mk (SignedTxVariant.Tx
        { tx := ZkSyncTx.Other 5, eth_sign_data := none })) = none ∧
    VerifiedTx.unwrap_tx (VerifiedTx.mk (SignedTxVariant.Batch []
        (TxEthSignature.EthereumSignature 15))) = none :=
  ⟨((c8_mismatched_accessor_aborts _).1 _ rfl).1,
   ((c8_mismatched_accessor_aborts _).2 [] _ rfl).1⟩

/-! ### C10 -/

/-- C10: whenever `VerifiedTx.verify` returns a verified value, its variant
kind matches the payload kind, so the accessor matching what the caller
submitted succeeds (is `some`) and never hits the abort path. -/
theorem c10_kind_preserved (oracle : TxOracle) (eth_checker : EthereumChecker)
    (req : TxVariant) (v : VerifiedTx)
    (h : VerifiedTx.verify oracle eth_checker req = Except.ok v) :
    (∀ tx, req = TxVariant.Tx tx → v.unwrap_tx.isSome = true) ∧
    (∀ txs batch_sign_data, req = TxVariant.Batch txs batch_sign_data →
      v.unwrap_batch.isSome = true) := by
  have hv := verify_ok_shape oracle eth_checker req v h
  constructor
  · rintro tx rfl
    subst hv
    rfl
  · rintro txs batch_sign_data rfl
    subst hv
    rfl

/-- Witness for C10 at a concrete single payload. -/
theorem c10_kind_preserved_witness :
    Option.isSome (VerifiedTx.unwrap_tx (VerifiedTx.mk (SignedTxVariant.Tx
      { tx := ZkSyncTx.Other 5, eth_sign_data := none }))) = true :=
  (c10_kind_preserved demoOracle demoChecker
      (TxVariant.Tx { tx := ZkSyncTx.Other 5, eth_sign_data := none }) _
      (by decide)).1
    { tx := ZkSyncTx.Other 5, eth_sign_data := none } rfl

/-! ### C9 -/

/-- C9: whenever `VerifiedTx.verify` succeeds, extracting through the
matching accessor returns data whose transaction contents equal the
transactions of the input payload (single: the same transaction; batch: the
same transaction list). -/
theorem c9_roundtrip (oracle : TxOracle) (eth_checker : EthereumChecker)
    (req : TxVariant) (v : VerifiedTx)
    (h : VerifiedTx.verify oracle eth_checker req = Except.ok v) :
    (∀ tx, req = TxVariant.Tx tx →
      ∃ s, v.unwrap_tx = some s ∧ s.tx = tx.tx) ∧
    (∀ txs batch_sign_data, req = TxVariant.Batch txs batch_sign_data →
      ∃ l sig, v.unwrap_batch = some (l, sig) ∧
        l.map SignedZkSyncTx.tx = txs.map TxWithSignData.tx) := by
  have hv := verify_ok_shape oracle eth_checker req v h
  constructor
  · rintro tx rfl
    subst hv
    exact ⟨_, rfl, rfl⟩
  · rintro txs batch_sign_data rfl
    subst hv
    refine ⟨_, _, rfl, ?_⟩
    simp [List.map_map]

/-- Witness for C9 at a concrete single payload. -/
theorem c9_roundtrip_witness :
    ∃ s, VerifiedTx.unwrap_tx (VerifiedTx.mk (SignedTxVariant.Tx
        { tx := ZkSyncTx.Other 5, eth_sign_data := none })) = some s ∧
      s.tx = ZkSyncTx.Other 5 :=
  (c9_roundtrip demoOracle demoChecker
      (TxVariant.Tx { tx := ZkSyncTx.Other 5, eth_sign_data := none }) _
      (by decide)).1
    { tx := ZkSyncTx.Other 5, eth_sign_data := none } rfl

/-! ### C2 -/

/-- C2: for a single-item payload whose transaction is a `ChangePubKey`
carrying no off-chain signature (neither inside the operation nor attached
sign data), and which passes the structural check, `verify` returns `Ok` if
and only if the on-chain capability reports the key change (identified by
account, nonce and new public-key hash) authorized; when the query reports
false the result is `Err ChangePkNotAuthorized`. -/
theorem c2_keychange_onchain_auth (oracle : TxOracle)
    (eth_checker : EthereumChecker) (change_pk : ChangePubKeyTx)
    (hsig : change_pk.eth_signature = none)
    (hcc : oracle.check_correctness (ZkSyncTx.ChangePubKey change_pk) = true) :
    ((VerifiedTx.verify oracle eth_checker
        (TxVariant.Tx { tx := ZkSyncTx.ChangePubKey change_pk, eth_sign_data := none })).isOk = true ↔
      eth_checker.is_new_pubkey_hash_authorized change_pk.account
        change_pk.nonce change_pk.new_pk_hash = true) ∧
    (eth_checker.is_new_pubkey_hash_authorized change_pk.account
        change_pk.nonce change_pk.new_pk_hash = false →
      VerifiedTx.verify oracle eth_checker
        (TxVariant.Tx { tx := ZkSyncTx.ChangePubKey change_pk, eth_sign_data := none }) =
        Except.error TxAddError.ChangePkNotAuthorized) := by
  cases hq : eth_checker.is_new_pubkey_hash_authorized change_pk.account
      change_pk.nonce change_pk.new_pk_hash with
  | false =>
    have hv : VerifiedTx.verify oracle eth_checker
        (TxVariant.Tx { tx := ZkSyncTx.ChangePubKey change_pk, eth_sign_data := none }) =
        Except.error TxAddError.ChangePkNotAuthorized := by
      simp only [VerifiedTx.verify, verify_eth_signature,
        verify_eth_signature_single_tx, check_change_pk_auth, hsig, hq,
        if_false, Bool.false_eq_true]
    rw [hv]
    simp [Except.isOk, Except.toBool]
  | true =>
    have hv : VerifiedTx.verify oracle eth_checker
        (TxVariant.Tx { tx := ZkSyncTx.ChangePubKey change_pk, eth_sign_data := none }) =
        Except.ok (rebuild_verified (TxVariant.Tx
          { tx := ZkSyncTx.ChangePubKey change_pk, eth_sign_data := none })) := by
      simp only [VerifiedTx.verify, verify_eth_signature,
        verify_eth_signature_single_tx, check_change_pk_auth, hsig, hq,
        if_true, check_eth_sign_data, verify_tx_correctness, hcc,
        Bool.not_true, Bool.false_eq_true, if_false]
    rw [hv]
    simp [Except.isOk, Except.toBool]

/-- Witness for C2: with the all-denying on-chain capability, a concrete
signature-less key change is rejected with `ChangePkNotAuthorized`. -/
theorem c2_keychange_onchain_auth_witness :
    VerifiedTx.verify demoOracle denyChecker
        (TxVariant.Tx
          { tx := ZkSyncTx.ChangePubKey
              { account := 1, nonce := 2, new_pk_hash := 3, eth_signature := none },
            eth_sign_data := none }) =
      Except.error TxAddError.ChangePkNotAuthorized :=
  (c2_keychange_onchain_auth demoOracle denyChecker
    { account := 1, nonce := 2, new_pk_hash := 3, eth_signature := none }
    rfl rfl).2 rfl

/-! ### C3 -/

/-- C3: for a single-item payload carrying a recoverable (packed ECDSA)
signature, provided the `ChangePubKey` authorization gate does not reject:
if recovery succeeds and yields the declared account and the structural
check passes then `verify` succeeds; if recovery fails, or recovery yields
an address different from the declared account, `verify` returns
`Err IncorrectEthSignature`. -/
theorem c3_recoverable_single (oracle : TxOracle)
    (eth_checker : EthereumChecker) (tx : TxWithSignData)
    (sign_data : EthSignData) (packed : Nat)
    (hgate : check_change_pk_auth eth_checker tx.tx = Except.ok ())
    (hsd : tx.eth_sign_data = some sign_data)
    (hps : sign_data.signature = TxEthSignature.EthereumSignature packed) :
    (∀ a, oracle.signature_recover_signer packed sign_data.message = some a →
      a = oracle.account_of tx.tx → oracle.check_correctness tx.tx = true →
      VerifiedTx.verify oracle eth_checker (TxVariant.Tx tx) =
        Except.ok (rebuild_verified (TxVariant.Tx tx))) ∧
    (oracle.signature_recover_signer packed sign_data.message = none →
      VerifiedTx.verify oracle eth_checker (TxVariant.Tx tx) =
        Except.error TxAddError.IncorrectEthSignature) ∧
    (∀ a, oracle.signature_recover_signer packed sign_data.message = some a →
      a ≠ oracle.account_of tx.tx →
      VerifiedTx.verify oracle eth_checker (TxVariant.Tx tx) =
        Except.error TxAddError.IncorrectEthSignature) := by
  refine ⟨?_, ?_, ?_⟩
  · intro a hrec haeq hcc
    simp only [VerifiedTx.verify, verify_eth_signature,
      verify_eth_signature_single_tx, hgate, check_eth_sign_data, hsd, hps,
      hrec, haeq, ne_eq, not_true_eq_false, if_false,
      verify_tx_correctness, hcc, Bool.not_true, Bool.false_eq_true]
  · intro hrec
    simp only [VerifiedTx.verify, verify_eth_signature,
      verify_eth_signature_single_tx, hgate, check_eth_sign_data, hsd, hps,
      hrec]
  · intro a hrec hane
    simp only [VerifiedTx.verify, verify_eth_signature,
      verify_eth_signature_single_tx, hgate, check_eth_sign_data, hsd, hps,
      hrec, ne_eq, hane, not_false_eq_true, if_true]

/-- Witness for C3: a concrete opaque transaction with account 5 and a
recoverable signature that recovers to 5 verifies successfully. -/
theorem c3_recoverable_single_witness :
    VerifiedTx.verify demoOracle demoChecker (TxVariant.Tx c1_item) =
      Except.ok (rebuild_verified (TxVariant.Tx c1_item)) :=
  (c3_recoverable_single demoOracle demoChecker c1_item
      { signature := TxEthSignature.EthereumSignature 5, message := [1] } 5
      rfl rfl rfl).1 5 rfl rfl rfl

/-! ### C4 -/

/-- C4: for a single-item payload carrying an EIP-1271 (contract-validated)
signature, provided the `ChangePubKey` authorization gate does not reject,
a negative on-chain validation of `(account, message, signature)` makes
`verify` return `Err IncorrectTx` — a rejection kind distinct from the
`IncorrectEthSignature` used by the recoverable-scheme case. -/
theorem c4_eip1271_single (oracle : TxOracle) (eth_checker : EthereumChecker)
    (tx : TxWithSignData) (sign_data : EthSignData) (sig : Nat)
    (hgate : check_change_pk_auth eth_checker tx.tx = Except.ok ())
    (hsd : tx.eth_sign_data = some sign_data)
    (hps : sign_data.signature = TxEthSignature.EIP1271Signature sig)
    (hbad : eth_checker.is_eip1271_signature_correct (oracle.account_of tx.tx)
      sign_data.message sig = false) :
    VerifiedTx.verify oracle eth_checker (TxVariant.Tx tx) =
      Except.error TxAddError.IncorrectTx ∧
    TxAddError.IncorrectTx ≠ TxAddError.IncorrectEthSignature := by
  refine ⟨?_, by decide⟩
  simp only [VerifiedTx.verify, verify_eth_signature,
    verify_eth_signature_single_tx, hgate, check_eth_sign_data, hsd, hps,
    hbad, Bool.false_eq_true, if_false]

/-- Witness for C4: a concrete opaque transaction with an EIP-1271 signature
is rejected with `IncorrectTx` by the all-denying capability (no
`ChangePubKey` gate applies to an opaque transaction). -/
theorem c4_eip1271_single_witness :
    VerifiedTx.verify demoOracle denyChecker
        (TxVariant.Tx
          { tx := ZkSyncTx.Other 5,
            eth_sign_data := some
              { signature := TxEthSignature.EIP1271Signature 9, message := [1] } }) =
      Except.error TxAddError.IncorrectTx ∧
    TxAddError.IncorrectTx ≠ TxAddError.IncorrectEthSignature :=
  c4_eip1271_single demoOracle denyChecker
    { tx := ZkSyncTx.Other 5,
      eth_sign_data := some
        { signature := TxEthSignature.EIP1271Signature 9, message := [1] } }
    { signature := TxEthSignature.EIP1271Signature 9, message := [1] } 9
    rfl rfl rfl rfl

/-! ### C5 -/

/-- C5: for a batch payload whose batch-level signature is recoverable and
recovers to address `a`, if any item of the batch declares an account
different from `a` then `verify` rejects the whole batch with
`IncorrectEthSignature`. -/
theorem c5_batch_recoverable_mismatch (oracle : TxOracle)
    (eth_checker : EthereumChecker) (txs : List TxWithSignData)
    (batch_sign_data : BatchSignData) (packed a : Nat) (tx0 : TxWithSignData)
    (hps : batch_sign_data.signData.signature =
      TxEthSignature.EthereumSignature packed)
    (hrec : oracle.signature_recover_signer packed
      batch_sign_data.signData.message = some a)
    (hmem : tx0 ∈ txs) (hne : oracle.account_of tx0.tx ≠ a) :
    VerifiedTx.verify oracle eth_checker
        (TxVariant.Batch txs batch_sign_data) =
      Except.error TxAddError.IncorrectEthSignature := by
  have hbatch : verify_eth_signature_txs_batch oracle eth_checker txs
      batch_sign_data = Except.error TxAddError.IncorrectEthSignature := by
    simp only [verify_eth_signature_txs_batch, hps, hrec]
    rw [if_pos]
    exact List.any_eq_true.mpr ⟨tx0, hmem, by simpa using hne⟩
  apply verify_eth_error_propagates
  simp only [verify_eth_signature, hbatch]

/-- Witness for C5: a concrete two-item batch whose second item has account 6
while the batch signature recovers to 5 is rejected with
`IncorrectEthSignature`. -/
theorem c5_batch_recoverable_mismatch_witness :
    VerifiedTx.verify demoOracle demoChecker
        (TxVariant.Batch
          [{ tx := ZkSyncTx.Other 5, eth_sign_data := none },
           { tx := ZkSyncTx.Other 6, eth_sign_data := none }]
          c1_batch_sign) =
      Except.error TxAddError.IncorrectEthSignature :=
  c5_batch_recoverable_mismatch demoOracle demoChecker
    [{ tx := ZkSyncTx.Other 5, eth_sign_data := none },
     { tx := ZkSyncTx.Other 6, eth_sign_data := none }]
    c1_batch_sign 15 5 { tx := ZkSyncTx.Other 6, eth_sign_data := none }
    rfl rfl (by decide) (by decide)

/-! ### C6 -/

/-- When every item of the batch validates, the EIP-1271 loop succeeds and
issues exactly one on-chain query per item, each with the batch message and
the batch signature. -/
theorem eip1271_loop_all_ok (oracle : TxOracle) (eth_checker : EthereumChecker)
    (message : List Nat) (sig : Nat) (txs : List TxWithSignData)
    (h : ∀ tx ∈ txs, eth_checker.is_eip1271_signature_correct
      (oracle.account_of tx.tx) message sig = true) :
    eip1271_batch_loop oracle eth_checker message sig txs =
      (Except.ok (), txs.map fun tx => (oracle.account_of tx.tx, message, sig)) := by
  induction txs with
  | nil => rfl
  | cons tx rest ih =>
    have htx := h tx (List.mem_cons_self tx rest)
    simp only [eip1271_batch_loop, htx, if_true, List.map_cons]
    rw [ih fun t ht => h t (List.mem_cons_of_mem tx ht)]

/-- When some item of the batch fails to validate, the EIP-1271 loop rejects
with `IncorrectTx`. -/
theorem eip1271_loop_err (oracle : TxOracle) (eth_checker : EthereumChecker)
    (message : List Nat) (sig : Nat) (txs : List TxWithSignData)
    (h : ∃ tx ∈ txs, eth_checker.is_eip1271_signature_correct
      (oracle.account_of tx.tx) message sig = false) :
    (eip1271_batch_loop oracle eth_checker message sig txs).1 =
      Except.error TxAddError.IncorrectTx := by
  induction txs with
  | nil => exact absurd h (by simp)
  | cons tx rest ih =>
    cases htx : eth_checker.is_eip1271_signature_correct
        (oracle.account_of tx.tx) message sig with
    | true =>
      simp only [eip1271_batch_loop, htx, if_true]
      apply ih
      obtain ⟨t, ht, hf⟩ := h
      rcases List.mem_cons.mp ht with rfl | htr
      · rw [htx] at hf
        cases hf
      · exact ⟨t, htr, hf⟩
    | false =>
      simp only [eip1271_batch_loop, htx, Bool.false_eq_true, if_false]

/-- An opaque batch item with account 7, used in the C6 statements. -/
def c6_item7 : TxWithSignData where
  tx := ZkSyncTx.Other 7
  eth_sign_data := none

/-- An opaque batch item with account 8, used in the C6 witness. -/
def c6_item8 : TxWithSignData where
  tx := ZkSyncTx.Other 8
  eth_sign_data := none

/-- Batch-level EIP-1271 sign data used in the C6 statements. -/
def c6_batch_sign : BatchSignData where
  signData := { signature := TxEthSignature.EIP1271Signature 4, message := [3] }

/-- Claim C6 as stated is refuted at a concrete batch: two items share the
account 7, so the batch has one distinct item account, yet the all-accepting
capability is queried twice — once per item, not once per distinct item
account. -/
theorem c6_counterexample :
    batch_eip1271_queries demoOracle demoChecker [c6_item7, c6_item7]
        c6_batch_sign =
      [(7, [3], 4), (7, [3], 4)] ∧
    (([c6_item7, c6_item7].map
        fun tx => demoOracle.account_of tx.tx).dedup = [7]) ∧
    (batch_eip1271_queries demoOracle demoChecker [c6_item7, c6_item7]
        c6_batch_sign).length ≠
      (([c6_item7, c6_item7].map
        fun tx => demoOracle.account_of tx.tx).dedup).length ∧
    verify_eth_signature_txs_batch demoOracle demoChecker [c6_item7, c6_item7]
        c6_batch_sign =
      Except.ok () := by
  decide

/-- C6 (amended): for a batch payload whose batch-level signature is
contract-validated, the on-chain capability is queried once per item of the
batch (not once per distinct item account), each query against the same
batch message and signature, short-circuiting at the first negative answer;
any negative answer fails the whole batch with `IncorrectTx`. -/
theorem c6_eip1271_batch (oracle : TxOracle) (eth_checker : EthereumChecker)
    (txs : List TxWithSignData) (batch_sign_data : BatchSignData) (sig : Nat)
    (hs : batch_sign_data.signData.signature =
      TxEthSignature.EIP1271Signature sig) :
    ((∀ tx ∈ txs, eth_checker.is_eip1271_signature_correct
        (oracle.account_of tx.tx) batch_sign_data.signData.message sig = true) →
      verify_eth_signature_txs_batch oracle eth_checker txs batch_sign_data =
        Except.ok () ∧
      batch_eip1271_queries oracle eth_checker txs batch_sign_data =
        txs.map fun tx =>
          (oracle.account_of tx.tx, batch_sign_data.signData.message, sig)) ∧
    ((∃ tx ∈ txs, eth_checker.is_eip1271_signature_correct
        (oracle.account_of tx.tx) batch_sign_data.signData.message sig = false) →
      VerifiedTx.verify oracle eth_checker
          (TxVariant.Batch txs batch_sign_data) =
        Except.error TxAddError.IncorrectTx) := by
  constructor
  · intro h
    have hloop := eip1271_loop_all_ok oracle eth_checker
      batch_sign_data.signData.message sig txs h
    constructor
    · simp only [verify_eth_signature_txs_batch, hs, hloop]
    · simp only [batch_eip1271_queries, hs, hloop]
  · intro h
    have hloop := eip1271_loop_err oracle eth_checker
      batch_sign_data.signData.message sig txs h
    have hbatch : verify_eth_signature_txs_batch oracle eth_checker txs
        batch_sign_data = Except.error TxAddError.IncorrectTx := by
      simp only [verify_eth_signature_txs_batch, hs, hloop]
    apply verify_eth_error_propagates
    simp only [verify_eth_signature, hbatch]

/-- Witness for C6 at a concrete two-item batch under the all-denying
capability: the batch is rejected with `IncorrectTx`. -/
theorem c6_eip1271_batch_witness :
    VerifiedTx.verify demoOracle denyChecker
        (TxVariant.Batch [c6_item7, c6_item8] c6_batch_sign) =
      Except.error TxAddError.IncorrectTx :=
  (c6_eip1271_batch demoOracle denyChecker [c6_item7, c6_item8]
      c6_batch_sign 4 rfl).2
    ⟨c6_item7, by decide, rfl⟩

/-! ### C7 -/

/-- An oracle whose structural self-consistency check rejects every
transaction, used as an evaluation witness. -/
def badTxOracle : TxOracle :=
  { demoOracle with check_correctness := fun _ => false }

/-- C7: the structural self-consistency check only matters after the
authorization checks succeed — an authorization failure is returned
unchanged — and when authorization succeeds but some item of the payload
fails the structural check, `verify` returns `Err IncorrectTx` (so no
verified value is produced). -/
theorem c7_structural_after_auth (oracle : TxOracle)
    (eth_checker : EthereumChecker) (req : TxVariant) :
    (∀ e, verify_eth_signature oracle eth_checker req = Except.error e →
      VerifiedTx.verify oracle eth_checker req = Except.error e) ∧
    (verify_eth_signature oracle eth_checker req = Except.ok () →
      (∃ tx ∈ req.items, oracle.check_correctness tx.tx = false) →
      VerifiedTx.verify oracle eth_checker req =
        Except.error TxAddError.IncorrectTx) := by
  constructor
  · intro e h
    exact verify_eth_error_propagates oracle eth_checker req e h
  · intro hok h
    obtain ⟨tx0, hmem, hbad⟩ := h
    have hcorr : verify_tx_correctness oracle req =
        Except.error TxAddError.IncorrectTx := by
      cases req with
      | Tx tx =>
        simp only [TxVariant.items, List.mem_singleton] at hmem
        subst hmem
        simp [verify_tx_correctness, hbad]
      | Batch txs batch_sign_data =>
        simp only [TxVariant.items] at hmem
        simp only [verify_tx_correctness]
        rw [if_pos]
        exact List.any_eq_true.mpr ⟨tx0, hmem, by simp [hbad]⟩
    simp only [VerifiedTx.verify, hok, hcorr]

/-- Witness for C7: a structurally rejected opaque transaction whose
authorization checks pass is rejected with `IncorrectTx`. -/
theorem c7_structural_after_auth_witness :
    VerifiedTx.verify badTxOracle demoChecker
        (TxVariant.Tx { tx := ZkSyncTx.Other 5, eth_sign_data := none }) =
      Except.error TxAddError.IncorrectTx :=
  (c7_structural_after_auth badTxOracle demoChecker
      (TxVariant.Tx { tx := ZkSyncTx.Other 5, eth_sign_data := none })).2
    (by decide)
    ⟨{ tx := ZkSyncTx.Other 5, eth_sign_data := none }, by decide, rfl⟩

end SignatureChecker
